import Mathlib

/-!
Shallow embedding of `src/Transaction.js` from marudor/node-zookeeper-client.

The Transaction builder accumulates an ordered list of operations
(create / check / setData / remove) and commits them as one multi-request.
JavaScript dynamic values that flow through the optional-argument
classification are modelled by the inductive `JSVal`; each prototype method
becomes a state-passing function `Transaction → args → Option String × Transaction`
where the first component is the message of a synchronously raised
assertion/validation error (`none` = no throw) and the second component is the
post-state of the mutable `this` object (JS exceptions leave `this.ops`
exactly as it was, so an erroring transcription returns the input state).
The commit completion handler (the closure passed to
`connectionManager.queue`) becomes the pure function `commitHandler`.
-/

/-- Modelled from the spec: an ACL entry (the external `ACL` module is outside
the core; only identity and list-shape of entries matter here). -/
structure ACLEntry where
  perms : Int
deriving DecidableEq, Repr

/-- Modelled from the spec: the well-known non-empty "open" default ACL set
(`ACL.OPEN_ACL_UNSAFE` in the external module). -/
def openACLDefault : List ACLEntry := [⟨31⟩]

/-- Modelled from the spec: the default creation mode `CreateMode.PERSISTENT`
from the external constants module. -/
def PERSISTENT : Int := 0

/-- Modelled from the spec: op-code constant for create (external `jute.OP_CODES`). -/
def OP_CREATE : Int := 1

/-- Modelled from the spec: op-code constant for delete (external `jute.OP_CODES`). -/
def OP_DELETE : Int := 2

/-- Modelled from the spec: op-code constant for setData (external `jute.OP_CODES`). -/
def OP_SET_DATA : Int := 5

/-- Modelled from the spec: op-code constant for check (external `jute.OP_CODES`). -/
def OP_CHECK : Int := 13

/-- Modelled from the spec: op-code constant tagging a multi-operation request
header (external `jute.OP_CODES.MULTI`). -/
def OP_MULTI : Int := 14

/-- Modelled from the spec: op-code marking an error entry in a multi-response
result array (external `jute.OP_CODES.ERROR`). -/
def OP_ERROR : Int := -1

/-- Modelled from the spec: the canonical "OK" sentinel of the error-code
enumeration (external `Exception.OK`). -/
def ExceptionOK : Int := 0

/-- Modelled from the spec: a typed error value produced by the error-kind
factory; it is indexed by the integer error code. -/
structure ZkException where
  code : Int
deriving DecidableEq, Repr

/-- Modelled from the spec: the error-kind factory `Exception.create`, mapping
an integer code to a typed error value. -/
def ZkException.create (c : Int) : ZkException := ⟨c⟩

/-- A JavaScript runtime value as far as the Transaction methods can observe
one: `undefined`, `null`, a number, an array (of ACL entries — the only arrays
that reach classification), a byte buffer, or some other (truthy,
unclassifiable) object. -/
inductive JSVal where
  | undef
  | null
  | num (n : Int)
  | arr (a : List ACLEntry)
  | buf (b : List Nat)
  | obj
deriving DecidableEq, Repr

/-- `Array.isArray(v)`. -/
def JSVal.isArr : JSVal → Bool
  | .arr _ => true
  | _ => false

/-- `typeof v === 'number'`. -/
def JSVal.isNum : JSVal → Bool
  | .num _ => true
  | _ => false

/-- `Buffer.isBuffer(v)`. -/
def JSVal.isBuf : JSVal → Bool
  | .buf _ => true
  | _ => false

/-- JavaScript truthiness of the modelled values: `undefined`, `null` and the
number `0` are falsy; arrays, buffers, nonzero numbers and other objects are
truthy. -/
def JSVal.truthy : JSVal → Bool
  | .undef => false
  | .null => false
  | .num n => n != 0
  | _ => true

/-- Numeric content of a value; only applied after a `typeof === 'number'`
assertion has succeeded. -/
def JSVal.toNum : JSVal → Int
  | .num n => n
  | _ => 0

/-- The data-validity assertion shared by `create` and `setData`:
`data === null || data === undefined || Buffer.isBuffer(data)`. -/
def dataOk (v : JSVal) : Bool := v == JSVal.null || v == JSVal.undef || v.isBuf

/-- An operation record pushed onto `this.ops` (the `type` field of the JS
record is the constructor tag). `data` keeps its JS value (`undefined`, `null`
or a buffer) exactly as pushed. -/
inductive Op where
  | createOp (path : String) (data : JSVal) (acls : List ACLEntry) (mode : Int)
  | checkOp (path : String) (version : Int)
  | setDataOp (path : String) (data : JSVal) (version : Int)
  | deleteOp (path : String) (version : Int)
deriving DecidableEq, Repr

/-- The Transaction object's own state: the ordered operation list `this.ops`
and the injected dispatcher reference `this.connectionManager` (opaque,
identified by a number). -/
structure Transaction where
  ops : List Op
  connectionManager : Nat
deriving DecidableEq, Repr

/-- Modelled from the spec: the external `Path.validate` rejects the empty
string and paths that do not start with the root delimiter "/" (the exact
grammar is owned externally; these two rules are the ones the spec states). -/
def pathValid (p : String) : Bool :=
  match p.data with
  | [] => false
  | c :: _ => c == '/'

/-- Modelled from the spec: message of the invalid-path condition raised by the
external validator. -/
def pathErrMsg : String := "invalid path"

/-- Assertion message from `create`/`setData` (source line 62 / 116). -/
def dataErrMsg : String := "data must be a valid buffer, null or undefined."

/-- Assertion message from `create` (source line 65). -/
def aclsErrMsg : String := "acls must be a non-empty array."

/-- Assertion message from `check`/`setData`/`remove` (source lines 90/118/142). -/
def versionErrMsg : String := "version must be a number."

/-- One step of the `optionalArgs.forEach` classification loop in `create`
(source lines 47-55): an array overwrites the `acls` slot, a number the `mode`
slot, a buffer the `data` slot; anything else is ignored. The accumulator is
`(data, acls, mode)`. -/
def classifyStep (s : JSVal × JSVal × JSVal) (arg : JSVal) : JSVal × JSVal × JSVal :=
  if arg.isArr then (s.1, arg, s.2.2)
  else if arg.isNum then (s.1, s.2.1, arg)
  else if arg.isBuf then (arg, s.2.1, s.2.2)
  else s

/-- The whole classification loop, starting from the reset
`data = acls = mode = undefined` (source line 46). -/
def classify (args : List JSVal) : JSVal × JSVal × JSVal :=
  args.foldl classifyStep (JSVal.undef, JSVal.undef, JSVal.undef)

/-- `acls = Array.isArray(acls) ? acls : ACL.OPEN_ACL_UNSAFE` (source line 57). -/
def resolveAcls : JSVal → List ACLEntry
  | JSVal.arr l => l
  | _ => openACLDefault

/-- `mode = typeof mode === 'number' ? mode : CreateMode.PERSISTENT` (source line 58). -/
def resolveMode : JSVal → Int
  | JSVal.num n => n
  | _ => PERSISTENT

/-- `Transaction.prototype.create` (source lines 40-76): validate the path,
classify the three optional slots by runtime shape, resolve defaults, assert
data validity and non-emptiness of the ACL list, then push one Create
operation. -/
def Transaction.create (t : Transaction) (path : String) (data acls mode : JSVal) :
    Option String × Transaction :=
  if pathValid path then
    let c := classify [data, acls, mode]
    let aclsR := resolveAcls c.2.1
    let modeR := resolveMode c.2.2
    if dataOk c.1 then
      if aclsR.length > 0 then
        (none, { t with ops := t.ops ++ [Op.createOp path c.1 aclsR modeR] })
      else (some aclsErrMsg, t)
    else (some dataErrMsg, t)
  else (some pathErrMsg, t)

/-- `Transaction.prototype.check` (source lines 86-99): `version = version || -1`,
validate the path, assert the version is a number, push one Check operation. -/
def Transaction.check (t : Transaction) (path : String) (version : JSVal) :
    Option String × Transaction :=
  let v := if version.truthy then version else JSVal.num (-1)
  if pathValid path then
    if v.isNum then
      (none, { t with ops := t.ops ++ [Op.checkOp path v.toNum] })
    else (some versionErrMsg, t)
  else (some pathErrMsg, t)

/-- `Transaction.prototype.setData` (source lines 110-128): `version = version || -1`,
validate the path, assert data validity, assert the version is a number, push
one SetData operation. -/
def Transaction.setData (t : Transaction) (path : String) (data version : JSVal) :
    Option String × Transaction :=
  let v := if version.truthy then version else JSVal.num (-1)
  if pathValid path then
    if dataOk data then
      if v.isNum then
        (none, { t with ops := t.ops ++ [Op.setDataOp path data v.toNum] })
      else (some versionErrMsg, t)
    else (some dataErrMsg, t)
  else (some pathErrMsg, t)

/-- `Transaction.prototype.remove` (source lines 138-151): `version = version || -1`,
validate the path, assert the version is a number, push one Delete operation. -/
def Transaction.remove (t : Transaction) (path : String) (version : JSVal) :
    Option String × Transaction :=
  let v := if version.truthy then version else JSVal.num (-1)
  if pathValid path then
    if v.isNum then
      (none, { t with ops := t.ops ++ [Op.deleteOp path v.toNum] })
    else (some versionErrMsg, t)
  else (some pathErrMsg, t)

/-- The outbound envelope built by `commit` (source lines 162-166): a header
whose type is the multi op-code and a payload carrying `this.ops`. -/
structure Request where
  htype : Int
  ops : List Op
deriving DecidableEq, Repr

/-- `Transaction.prototype.commit` (source lines 159-190), synchronous part:
build the request from `this.ops` and hand it to the dispatcher. The method
body assigns to no field of `this`, so the post-state of the transaction is
returned unchanged. -/
def Transaction.commit (t : Transaction) : Request × Transaction :=
  ({ htype := OP_MULTI, ops := t.ops }, t)

/-- One entry of `response.payload.results`: its op-code kind and embedded
error code. -/
structure MultiResult where
  type : Int
  err : Int
deriving DecidableEq, Repr

/-- The response object handed to the queue callback on dispatch success;
`results` is `response.payload.results`. -/
structure Response where
  results : List MultiResult
deriving DecidableEq, Repr

/-- The condition of source line 182: the entry's kind is the error op-code and
its embedded code is not the OK sentinel. -/
def isErrEntry (r : MultiResult) : Bool := r.type == OP_ERROR && r.err != ExceptionOK

/-- The scanning loop of source lines 178-186: walk the result array in order
and stop at the first entry satisfying `isErrEntry`, yielding its code. -/
def scanResults : List MultiResult → Option Int
  | [] => none
  | r :: rs => if isErrEntry r then some r.err else scanResults rs

/-- The single invocation of the commit callback: either `callback(error)` on
dispatch failure, or `callback(error, response.payload.results)` after the
scan. -/
inductive CallbackCall where
  | withError (e : String)
  | withResults (e : Option ZkException) (results : List MultiResult)
deriving DecidableEq, Repr

/-- The completion closure `commit` passes to `connectionManager.queue`
(source lines 168-189). A dispatch error is forwarded as `callback(error)`
before the response is touched; otherwise the result array is scanned and the
callback receives the (possibly created) error together with the full result
array. `none` models the runtime crash of reading `response.payload.results`
when the dispatcher supplied no response on success — the dispatcher contract
rules that out. -/
def commitHandler (error : Option String) (response : Option Response) :
    Option CallbackCall :=
  match error with
  | some e => some (CallbackCall.withError e)
  | none =>
    match response with
    | none => none
    | some resp =>
      match scanResults resp.results with
      | some code =>
          some (CallbackCall.withResults (some (ZkException.create code)) resp.results)
      | none => some (CallbackCall.withResults none resp.results)

/-- Restates the spec's resolution rule for the ACL slot: the last
array-shaped optional argument wins; with none supplied the default applies.
Written from the spec's words, to be compared with the source's `classify`. -/
def specLastAcls : List JSVal → Option (List ACLEntry)
  | [] => none
  | v :: vs =>
    match specLastAcls vs with
    | some l => some l
    | none => match v with
      | JSVal.arr l => some l
      | _ => none

/-- Restates the spec's resolution rule for the mode slot: the last
number-shaped optional argument wins. Written from the spec's words. -/
def specLastMode : List JSVal → Option Int
  | [] => none
  | v :: vs =>
    match specLastMode vs with
    | some n => some n
    | none => match v with
      | JSVal.num n => some n
      | _ => none

/-- Restates the spec's resolution rule for the data slot: the last
buffer-shaped optional argument wins. Written from the spec's words. -/
def specLastData : List JSVal → Option (List Nat)
  | [] => none
  | v :: vs =>
    match specLastData vs with
    | some b => some b
    | none => match v with
      | JSVal.buf b => some b
      | _ => none

/-- The spec-side resolved Create fields: classified values with documented
defaults (data absent, ACL default, mode persistent). -/
def specResolvedAcls (args : List JSVal) : List ACLEntry :=
  (specLastAcls args).getD openACLDefault

/-- Spec-side resolved mode with its default. -/
def specResolvedMode (args : List JSVal) : Int :=
  (specLastMode args).getD PERSISTENT

/-- Spec-side resolved data slot: a buffer value, or absent (`undefined`). -/
def specResolvedData (args : List JSVal) : JSVal :=
  match specLastData args with
  | some b => JSVal.buf b
  | none => JSVal.undef

/-- The empty transaction used as a concrete starting state in witnesses. -/
def t0 : Transaction := ⟨[], 0⟩

/-- Scanning stops at the first entry that satisfies the error condition and
yields that entry's code. -/
theorem scan_eq_of_first (rs : List MultiResult) (i : Nat) (hi : i < rs.length)
    (he : isErrEntry rs[i] = true)
    (hf : ∀ r ∈ rs.take i, isErrEntry r = false) :
    scanResults rs = some rs[i].err := by
  induction rs generalizing i with
  | nil => simp at hi
  | cons r rest ih =>
    cases i with
    | zero =>
      simp only [List.getElem_cons_zero] at he ⊢
      simp [scanResults, he]
    | succ k =>
      have hr : isErrEntry r = false := hf r (by simp [List.take_succ_cons])
      simp only [List.getElem_cons_succ] at he ⊢
      simp only [scanResults, hr, Bool.false_eq_true, if_false]
      exact ih k (Nat.lt_of_succ_lt_succ hi) he
        (fun x hx => hf x (by simp only [List.take_succ_cons, List.mem_cons]; exact Or.inr hx))

/-- Scanning a result array with no error entry yields nothing. -/
theorem scan_none_of_all_ok (rs : List MultiResult)
    (h : ∀ r ∈ rs, isErrEntry r = false) : scanResults rs = none := by
  induction rs with
  | nil => rfl
  | cons r rest ih =>
    simp only [scanResults, h r (by simp), Bool.false_eq_true, if_false]
    exact ih (fun x hx => h x (by simp [hx]))

/-- One classification step keeps the data slot valid (it is only ever
overwritten with a buffer). -/
theorem classifyStep_data_ok (s : JSVal × JSVal × JSVal) (arg : JSVal)
    (h : dataOk s.1 = true) : dataOk (classifyStep s arg).1 = true := by
  cases arg <;> simp_all [classifyStep, JSVal.isArr, JSVal.isNum, JSVal.isBuf, dataOk]

/-- The classification loop keeps the data slot valid. -/
theorem classify_data_ok_aux (args : List JSVal) (s : JSVal × JSVal × JSVal)
    (h : dataOk s.1 = true) : dataOk (args.foldl classifyStep s).1 = true := by
  induction args generalizing s with
  | nil => simpa using h
  | cons a as ih => exact ih _ (classifyStep_data_ok s a h)

/-- After classification, the data slot is always `undefined` or a buffer, so
the data assertion of `create` (source line 60) cannot fail. -/
theorem classify_data_ok (args : List JSVal) : dataOk (classify args).1 = true :=
  classify_data_ok_aux args _ (by decide)

/-- Collapsed form of `Transaction.create`: since the classified data slot is
always valid, the behaviour is decided by path validity and the resolved ACL
list's length. -/
theorem create_eq (t : Transaction) (p : String) (d a m : JSVal) :
    Transaction.create t p d a m =
      if pathValid p then
        if (resolveAcls (classify [d, a, m]).2.1).length > 0 then
          (none, ⟨t.ops ++ [Op.createOp p (classify [d, a, m]).1
            (resolveAcls (classify [d, a, m]).2.1)
            (resolveMode (classify [d, a, m]).2.2)], t.connectionManager⟩)
        else (some aclsErrMsg, t)
      else (some pathErrMsg, t) := by
  have hd := classify_data_ok [d, a, m]
  simp [Transaction.create, hd]

/-- Shape of a `create` call: on success exactly the classified operation is
appended; on error the state is untouched. -/
theorem create_shape (t : Transaction) (p : String) (d a m : JSVal) :
    ((Transaction.create t p d a m).1 = none →
      (Transaction.create t p d a m).2 =
        ⟨t.ops ++ [Op.createOp p (classify [d, a, m]).1
          (resolveAcls (classify [d, a, m]).2.1)
          (resolveMode (classify [d, a, m]).2.2)], t.connectionManager⟩)
  ∧ ((Transaction.create t p d a m).1.isSome = true →
      (Transaction.create t p d a m).2 = t) := by
  rw [create_eq]
  split_ifs <;> constructor <;> intro h <;> simp_all

/-- Shape of a `check` call. -/
theorem check_shape (t : Transaction) (p : String) (v : JSVal) :
    ((Transaction.check t p v).1 = none →
      (Transaction.check t p v).2 =
        ⟨t.ops ++ [Op.checkOp p ((if v.truthy then v else JSVal.num (-1)).toNum)],
          t.connectionManager⟩)
  ∧ ((Transaction.check t p v).1.isSome = true → (Transaction.check t p v).2 = t) := by
  simp only [Transaction.check]
  split_ifs <;> constructor <;> intro h <;> simp_all

/-- Shape of a `setData` call. -/
theorem setData_shape (t : Transaction) (p : String) (d v : JSVal) :
    ((Transaction.setData t p d v).1 = none →
      (Transaction.setData t p d v).2 =
        ⟨t.ops ++ [Op.setDataOp p d ((if v.truthy then v else JSVal.num (-1)).toNum)],
          t.connectionManager⟩)
  ∧ ((Transaction.setData t p d v).1.isSome = true →
      (Transaction.setData t p d v).2 = t) := by
  simp only [Transaction.setData]
  split_ifs <;> constructor <;> intro h <;> simp_all

/-- Shape of a `remove` call. -/
theorem remove_shape (t : Transaction) (p : String) (v : JSVal) :
    ((Transaction.remove t p v).1 = none →
      (Transaction.remove t p v).2 =
        ⟨t.ops ++ [Op.deleteOp p ((if v.truthy then v else JSVal.num (-1)).toNum)],
          t.connectionManager⟩)
  ∧ ((Transaction.remove t p v).1.isSome = true → (Transaction.remove t p v).2 = t) := by
  simp only [Transaction.remove]
  split_ifs <;> constructor <;> intro h <;> simp_all

/-- C1: for a committed transaction whose dispatch succeeds, if the result
array contains an entry of error kind with a non-OK code, the commit callback
receives an error built by the error-kind factory from the code of the FIRST
such entry in array order, together with the full result array. -/
theorem tx_commit_reports_first_error (rs : List MultiResult) (i : Nat)
    (hi : i < rs.length) (he : isErrEntry rs[i] = true)
    (hf : ∀ r ∈ rs.take i, isErrEntry r = false) :
    commitHandler none (some ⟨rs⟩) =
      some (CallbackCall.withResults (some (ZkException.create rs[i].err)) rs) := by
  simp [commitHandler, scan_eq_of_first rs i hi he hf]

/-- Witness for C1: a three-entry result array whose second entry is the first
error marker (code 5) yields a callback with the factory error 5 and the full
array. -/
theorem tx_commit_reports_first_error_witness :
    commitHandler none (some ⟨[⟨1, 0⟩, ⟨-1, 5⟩, ⟨-1, 3⟩]⟩) =
      some (CallbackCall.withResults (some (ZkException.create 5))
        [⟨1, 0⟩, ⟨-1, 5⟩, ⟨-1, 3⟩]) := by
  have h := tx_commit_reports_first_error [⟨1, 0⟩, ⟨-1, 5⟩, ⟨-1, 3⟩] 1
    (by decide) (by decide) (by decide)
  simpa using h

/-- C2: for a committed transaction whose dispatch succeeds with a result
array containing no error-kind non-OK entry, the (single) callback invocation
carries no error and the ordered result array, one entry per submitted
operation (the length correspondence is the dispatcher's interface contract,
taken as a hypothesis). -/
theorem tx_commit_success_forwards_results (t : Transaction) (rs : List MultiResult)
    (hlen : rs.length = t.ops.length)
    (hok : ∀ r ∈ rs, isErrEntry r = false) :
    commitHandler none (some ⟨rs⟩) = some (CallbackCall.withResults none rs)
      ∧ rs.length = t.ops.length :=
  ⟨by simp [commitHandler, scan_none_of_all_ok rs hok], hlen⟩

/-- Witness for C2: a two-operation transaction and two success entries. -/
theorem tx_commit_success_forwards_results_witness :
    commitHandler none (some ⟨[⟨1, 0⟩, ⟨5, 0⟩]⟩) =
      some (CallbackCall.withResults none [⟨1, 0⟩, ⟨5, 0⟩]) := by
  have h := tx_commit_success_forwards_results
    ⟨[Op.checkOp "/a" 1, Op.deleteOp "/b" 2], 0⟩ [⟨1, 0⟩, ⟨5, 0⟩]
    (by decide) (by decide)
  exact h.1

/-- Counterexample to C3 as stated: supplying the integer version 0 to `check`
stores -1, not 0, because of the JavaScript falsy defaulting
`version = version || -1`. -/
theorem tx_version_zero_coerced_cex :
    (Transaction.check t0 "/a" (JSVal.num 0)).2.ops = [Op.checkOp "/a" (-1)]
      ∧ ¬ ((-1 : Int) = 0) := by decide

/-- C3 (amended): for `check`, `setData` and `remove`, an omitted version
defaults to -1 and any NONZERO supplied integer is stored exactly; a supplied
integer 0 is coerced to the default -1 by the falsy defaulting. -/
theorem tx_version_defaulting (t : Transaction) (p : String) (n : Int) (d : JSVal)
    (hp : pathValid p = true) (hn : n ≠ 0) (hd : dataOk d = true) :
    (Transaction.check t p JSVal.undef).2.ops = t.ops ++ [Op.checkOp p (-1)]
  ∧ (Transaction.check t p (JSVal.num 0)).2.ops = t.ops ++ [Op.checkOp p (-1)]
  ∧ (Transaction.check t p (JSVal.num n)).2.ops = t.ops ++ [Op.checkOp p n]
  ∧ (Transaction.setData t p d JSVal.undef).2.ops = t.ops ++ [Op.setDataOp p d (-1)]
  ∧ (Transaction.setData t p d (JSVal.num 0)).2.ops = t.ops ++ [Op.setDataOp p d (-1)]
  ∧ (Transaction.setData t p d (JSVal.num n)).2.ops = t.ops ++ [Op.setDataOp p d n]
  ∧ (Transaction.remove t p JSVal.undef).2.ops = t.ops ++ [Op.deleteOp p (-1)]
  ∧ (Transaction.remove t p (JSVal.num 0)).2.ops = t.ops ++ [Op.deleteOp p (-1)]
  ∧ (Transaction.remove t p (JSVal.num n)).2.ops = t.ops ++ [Op.deleteOp p n] := by
  have hn2 : (n != 0) = true := by simpa using hn
  refine ⟨?_, ?_, ?_, ?_, ?_, ?_, ?_, ?_, ?_⟩ <;>
    simp [Transaction.check, Transaction.setData, Transaction.remove,
      JSVal.truthy, JSVal.isNum, JSVal.toNum, hp, hd, hn2]

/-- Witness for C3 (amended): nonzero version 5 is stored exactly by `check`. -/
theorem tx_version_defaulting_witness :
    (Transaction.check t0 "/a" (JSVal.num 5)).2.ops = [Op.checkOp "/a" 5] := by
  have h := tx_version_defaulting t0 "/a" 5 JSVal.undef
    (by decide) (by decide) (by decide)
  simpa using h.2.2.1

/-- C4: `create` with a valid path resolves its three optional slots by
runtime shape with last-classified-wins and the documented defaults, and (when
the resolved ACL list is non-empty, so the call appends) the appended Create
operation's fields equal exactly the spec-side resolved values. -/
theorem tx_create_argument_resolution (t : Transaction) (p : String) (d a m : JSVal)
    (hp : pathValid p = true)
    (hne : 0 < (specResolvedAcls [d, a, m]).length) :
    Transaction.create t p d a m =
      (none, ⟨t.ops ++ [Op.createOp p (specResolvedData [d, a, m])
        (specResolvedAcls [d, a, m]) (specResolvedMode [d, a, m])],
        t.connectionManager⟩) := by
  have key : (classify [d, a, m]).1 = specResolvedData [d, a, m]
      ∧ resolveAcls (classify [d, a, m]).2.1 = specResolvedAcls [d, a, m]
      ∧ resolveMode (classify [d, a, m]).2.2 = specResolvedMode [d, a, m] := by
    cases d <;> cases a <;> cases m <;>
      simp [classify, classifyStep, resolveAcls, resolveMode,
        specResolvedData, specResolvedAcls, specResolvedMode,
        specLastData, specLastAcls, specLastMode,
        JSVal.isArr, JSVal.isNum, JSVal.isBuf]
  rw [create_eq, key.1, key.2.1, key.2.2]
  simp [hp, hne]

/-- Witness for C4: slots supplied in a scrambled order (number first, buffer
second, array third) are classified into mode, data and acls respectively. -/
theorem tx_create_argument_resolution_witness :
    Transaction.create t0 "/a" (JSVal.num 3) (JSVal.buf [7]) (JSVal.arr [⟨5⟩]) =
      (none, ⟨[Op.createOp "/a" (JSVal.buf [7]) [⟨5⟩] 3], 0⟩) := by
  have h := tx_create_argument_resolution t0 "/a"
    (JSVal.num 3) (JSVal.buf [7]) (JSVal.arr [⟨5⟩]) (by decide) (by decide)
  simpa using h

/-- Counterexample to C5 as stated: passing an unclassifiable non-buffer value
(a plain object) as `create`'s data argument raises no error at all — the
classification loop ignores it, the data slot stays `undefined`, and a Create
operation with absent data is appended. -/
theorem tx_create_ignores_nonbuffer_data_cex :
    Transaction.create t0 "/a" JSVal.obj JSVal.undef JSVal.undef =
      (none, ⟨[Op.createOp "/a" JSVal.undef openACLDefault PERSISTENT], 0⟩) := by
  decide

/-- C5 (amended): `setData` raises the invalid-argument error synchronously
for any supplied data that is neither absent nor a buffer; `create` instead
never classifies such a value into the data slot — an argument that is not an
array, number or buffer is silently ignored, so the call behaves exactly as if
that argument were `undefined`. -/
theorem tx_data_validation (t : Transaction) (p : String) (d v a m : JSVal) :
    (pathValid p = true → dataOk d = false →
      Transaction.setData t p d v = (some dataErrMsg, t))
  ∧ (d.isArr = false → d.isNum = false → d.isBuf = false →
      Transaction.create t p d a m = Transaction.create t p JSVal.undef a m) := by
  constructor
  · intro hp hd
    simp [Transaction.setData, hp, hd]
  · intro h1 h2 h3
    have hstep : classifyStep (JSVal.undef, JSVal.undef, JSVal.undef) d =
        classifyStep (JSVal.undef, JSVal.undef, JSVal.undef) JSVal.undef := by
      cases d <;> simp_all [classifyStep, JSVal.isArr, JSVal.isNum, JSVal.isBuf]
    simp only [Transaction.create, classify, List.foldl_cons, hstep]

/-- Witness for C5 (amended): a plain object as data makes `setData` throw the
data assertion, while the same value handed to `create` is ignored. -/
theorem tx_data_validation_witness :
    Transaction.setData t0 "/a" JSVal.obj JSVal.undef = (some dataErrMsg, t0)
  ∧ Transaction.create t0 "/a" JSVal.obj JSVal.undef JSVal.undef =
      Transaction.create t0 "/a" JSVal.undef JSVal.undef JSVal.undef := by
  have h := tx_data_validation t0 "/a" JSVal.obj JSVal.undef JSVal.undef JSVal.undef
  exact ⟨h.1 (by decide) (by decide), h.2 (by decide) (by decide) (by decide)⟩

/-- C6: when the dispatcher reports an error, the commit callback receives
exactly that error value, with no result array and no scanning of any
response whatsoever (the response argument is irrelevant). -/
theorem tx_commit_propagates_dispatch_error (e : String) (resp : Option Response) :
    commitHandler (some e) resp = some (CallbackCall.withError e) := rfl

/-- C7: whenever the classified ACL slot of `create` is an empty array —
however it was supplied among the three optional slots — the call raises the
non-empty-acls assertion and the operation list is unchanged. -/
theorem tx_create_rejects_empty_acls (t : Transaction) (p : String) (d a m : JSVal)
    (hp : pathValid p = true)
    (hempty : (classify [d, a, m]).2.1 = JSVal.arr []) :
    Transaction.create t p d a m = (some aclsErrMsg, t) := by
  rw [create_eq]
  simp [hp, hempty, resolveAcls]

/-- Witness for C7: an empty array passed in the first optional slot (the
`data` position) is classified as the ACL list and rejected. -/
theorem tx_create_rejects_empty_acls_witness :
    Transaction.create t0 "/a" (JSVal.arr []) JSVal.undef JSVal.undef =
      (some aclsErrMsg, t0) :=
  tx_create_rejects_empty_acls t0 "/a" (JSVal.arr []) JSVal.undef JSVal.undef
    (by decide) (by decide)

/-- C8: every append call that raises a validation error leaves the
transaction's operation sequence (and whole state) exactly as it was — the
error is raised before any push. -/
theorem tx_append_error_frame (t : Transaction) (p1 p2 p3 p4 : String)
    (d a m dv v1 v2 v3 : JSVal) :
    ((Transaction.create t p1 d a m).1.isSome = true →
      (Transaction.create t p1 d a m).2 = t)
  ∧ ((Transaction.check t p2 v1).1.isSome = true → (Transaction.check t p2 v1).2 = t)
  ∧ ((Transaction.setData t p3 dv v2).1.isSome = true →
      (Transaction.setData t p3 dv v2).2 = t)
  ∧ ((Transaction.remove t p4 v3).1.isSome = true →
      (Transaction.remove t p4 v3).2 = t) :=
  ⟨(create_shape t p1 d a m).2, (check_shape t p2 v1).2,
    (setData_shape t p3 dv v2).2, (remove_shape t p4 v3).2⟩

/-- Witness for C8: `create` with the invalid empty path errors and the
transaction state is unchanged. -/
theorem tx_append_error_frame_witness :
    (Transaction.create t0 "" JSVal.undef JSVal.undef JSVal.undef).1.isSome = true
  ∧ (Transaction.create t0 "" JSVal.undef JSVal.undef JSVal.undef).2 = t0 := by
  have h := tx_append_error_frame t0 "" "/a" "/a" "/a"
    JSVal.undef JSVal.undef JSVal.undef JSVal.undef
    (JSVal.num 1) (JSVal.num 1) (JSVal.num 1)
  exact ⟨by decide, h.1 (by decide)⟩

/-- C9: each successful append appends exactly one operation at the end of the
sequence on the same transaction (same dispatcher reference); chaining three
successful appends yields the sequence extended by exactly [A, B, C] in that
order; and commit submits exactly the accumulated sequence, unreordered, under
the multi header. -/
theorem tx_append_order_and_commit (t : Transaction) (p : String)
    (d a m v dv : JSVal) :
    ((Transaction.create t p d a m).1 = none →
      ∃ op, (Transaction.create t p d a m).2.ops = t.ops ++ [op]
        ∧ (Transaction.create t p d a m).2.connectionManager = t.connectionManager)
  ∧ ((Transaction.check t p v).1 = none →
      ∃ op, (Transaction.check t p v).2.ops = t.ops ++ [op]
        ∧ (Transaction.check t p v).2.connectionManager = t.connectionManager)
  ∧ ((Transaction.setData t p dv v).1 = none →
      ∃ op, (Transaction.setData t p dv v).2.ops = t.ops ++ [op]
        ∧ (Transaction.setData t p dv v).2.connectionManager = t.connectionManager)
  ∧ ((Transaction.remove t p v).1 = none →
      ∃ op, (Transaction.remove t p v).2.ops = t.ops ++ [op]
        ∧ (Transaction.remove t p v).2.connectionManager = t.connectionManager)
  ∧ (Transaction.commit t).1 = ⟨OP_MULTI, t.ops⟩
  ∧ (∀ h1 : (Transaction.check t p v).1 = none,
     ∀ h2 : (Transaction.setData (Transaction.check t p v).2 p dv v).1 = none,
     ∀ h3 : (Transaction.remove
        (Transaction.setData (Transaction.check t p v).2 p dv v).2 p v).1 = none,
      ∃ A B C,
        (Transaction.remove
          (Transaction.setData (Transaction.check t p v).2 p dv v).2 p v).2.ops =
            t.ops ++ [A, B, C]
        ∧ (Transaction.commit (Transaction.remove
            (Transaction.setData (Transaction.check t p v).2 p dv v).2 p v).2).1.ops =
              t.ops ++ [A, B, C]) := by
  refine ⟨?_, ?_, ?_, ?_, rfl, ?_⟩
  · intro h; rw [(create_shape t p d a m).1 h]; exact ⟨_, rfl, rfl⟩
  · intro h; rw [(check_shape t p v).1 h]; exact ⟨_, rfl, rfl⟩
  · intro h; rw [(setData_shape t p dv v).1 h]; exact ⟨_, rfl, rfl⟩
  · intro h; rw [(remove_shape t p v).1 h]; exact ⟨_, rfl, rfl⟩
  · intro h1 h2 h3
    have e1 := (check_shape t p v).1 h1
    have e2 := (setData_shape (Transaction.check t p v).2 p dv v).1 h2
    have e3 := (remove_shape
      (Transaction.setData (Transaction.check t p v).2 p dv v).2 p v).1 h3
    refine ⟨Op.checkOp p ((if v.truthy then v else JSVal.num (-1)).toNum),
      Op.setDataOp p dv ((if v.truthy then v else JSVal.num (-1)).toNum),
      Op.deleteOp p ((if v.truthy then v else JSVal.num (-1)).toNum), ?_, ?_⟩ <;>
      rw [e3, e2, e1] <;> simp [Transaction.commit]

/-- Witness for C9: a successful `check` on the empty transaction appends one
operation. -/
theorem tx_append_order_and_commit_witness :
    ∃ op, (Transaction.check t0 "/a" (JSVal.num 1)).2.ops = t0.ops ++ [op]
      ∧ (Transaction.check t0 "/a" (JSVal.num 1)).2.connectionManager =
          t0.connectionManager := by
  have h := tx_append_order_and_commit t0 "/a"
    JSVal.undef JSVal.undef JSVal.undef (JSVal.num 1) JSVal.undef
  exact h.2.1 (by decide)

/-- C10: commit never mutates the transaction: the post-state equals the
pre-state (operation list and dispatcher reference included), further appends
behave exactly as before the commit, and a second commit of the same instance
is not prevented and builds the same request. The completion closure
(`commitHandler`) takes no part of the transaction state at all. -/
theorem tx_commit_preserves_state (t : Transaction) (p : String) (v d a m : JSVal) :
    (Transaction.commit t).2 = t
  ∧ Transaction.check (Transaction.commit t).2 p v = Transaction.check t p v
  ∧ Transaction.create (Transaction.commit t).2 p d a m = Transaction.create t p d a m
  ∧ Transaction.commit (Transaction.commit t).2 = Transaction.commit t :=
  ⟨rfl, rfl, rfl, rfl⟩
